import Mathlib

/-!
Shallow embedding of src/src/uinput.rs (virtual input device creation over
uinput) for checking the repository's specification.

Kernel and filesystem interactions are modelled as an explicit trace of
issued calls (`KCall`), with an environment function giving each call's
outcome. Pure computations (struct population, name-buffer handling, the
null-byte scan, UTF-8 validation) are translated directly from the source.
-/

namespace Evdev

/-- OS-level handles owned by the virtual device: the uinput control handle
(field `file` in the source) and the discovered event handle (`file_event`). -/
inductive Fd where
  | control
  | event
deriving DecidableEq, Repr

namespace EventType

/-- Modelled from the spec: crate::constants::EventType is outside src/;
these are the Linux input event-type codes used by src/src/uinput.rs. -/
def SYNCHRONIZATION : Nat := 0x00

/-- Modelled from the spec: the key event-type code. -/
def KEY : Nat := 0x01

/-- Modelled from the spec: the relative-axis event-type code. -/
def RELATIVE : Nat := 0x02

/-- Modelled from the spec: the miscellaneous event-type code. -/
def MISC : Nat := 0x04

/-- Modelled from the spec: the switch event-type code. -/
def SWITCH : Nat := 0x05

/-- Modelled from the spec: the LED event-type code. -/
def LED : Nat := 0x11

end EventType

/-- An input event record: type code, code, value. The timestamp is opaque to
this core (spec section 3) and omitted. -/
structure InputEvent where
  ty : Nat
  code : Nat
  value : Int
deriving DecidableEq, Repr

/-- Modelled from the spec: InputEvent::new (outside src/) builds a record
from an event type, a code and a value. -/
def InputEvent.new (t : Nat) (c : Nat) (v : Int) : InputEvent := ⟨t, c, v⟩

/-- The synchronization record synthesized by emit:
InputEvent::new(EventType::SYNCHRONIZATION, 0, 0). -/
def synEvent : InputEvent := InputEvent.new EventType.SYNCHRONIZATION 0 0

/-- Bus identity tuple, as libc::input_id. -/
structure InputId where
  bustype : Nat
  vendor : Nat
  product : Nat
  version : Nat
deriving DecidableEq, Repr

namespace BusType

/-- Modelled from the spec: BusType (crate::inputid, outside src/);
BUS_USB is the Linux USB bus code 0x03. -/
def BUS_USB : Nat := 0x03

end BusType

/-- DEFAULT_ID from uinput.rs: bus BUS_USB, sample vendor 0x1234, sample
product 0x5678, version 0x111. -/
def DEFAULT_ID : InputId :=
  { bustype := BusType.BUS_USB, vendor := 0x1234, product := 0x5678, version := 0x111 }

/-- Modelled from libc (outside src/): UINPUT_MAX_NAME_SIZE, the fixed
capacity of the uinput_setup name buffer (80 on Linux). -/
def UINPUT_MAX_NAME_SIZE : Nat := 80

/-- The libc::uinput_setup record populated by build: bus identity, fixed
capacity name buffer (byte list), force-feedback effect count. -/
structure UinputSetup where
  id : InputId
  name : List Nat
  ff_effects_max : Nat
deriving DecidableEq, Repr

/-- Flags passed to OpenOptions when opening the event node. -/
structure OpenCfg where
  readFlag : Bool
  writeFlag : Bool
  nonblock : Bool
deriving DecidableEq, Repr

/-- Kind of an OS error, as the io::ErrorKind values this module can observe
or construct. -/
inductive ErrorKind where
  | notFound
  | permissionDenied
  | other
deriving DecidableEq, Repr

/-- One kernel or filesystem interaction issued by the code, in issue order.
readDir carries the decoded sysname bytes the listed topology directory is
derived from; openFile carries the entry name under /dev/input and the open
flags. -/
inductive KCall where
  | setEvBit (fd : Fd) (ty : Nat)
  | setKeyBit (fd : Fd) (code : Nat)
  | setMscBit (fd : Fd) (code : Nat)
  | setLedBit (fd : Fd) (code : Nat)
  | setRelBit (fd : Fd) (code : Nat)
  | setSwBit (fd : Fd) (code : Nat)
  | devSetup (fd : Fd) (u : UinputSetup)
  | devCreate (fd : Fd)
  | getSysname (fd : Fd)
  | readDir (nameBytes : List Nat)
  | openFile (fname : List Nat) (cfg : OpenCfg)
  | writeAll (fd : Fd) (records : List InputEvent)
  | eviocgkey (fd : Fd)
  | eviocgsw (fd : Fd)
  | eviocgled (fd : Fd)
deriving DecidableEq, Repr

/-- Issue a fixed sequence of calls left to right, stopping at the first
failure; io gives each call's outcome (none = success, some k = failure of
kind k). This models a chain of operations each followed by ? in the
source. Returns the trace of issued calls and the overall outcome. -/
def issueAll (io : KCall → Option ErrorKind) : List KCall → List KCall × Option ErrorKind
  | [] => ([], none)
  | c :: cs =>
    match io c with
    | none =>
      let r := issueAll io cs
      (c :: r.1, r.2)
    | some k => ([c], some k)

/-- VirtualDevice::emit: write_raw(messages) on the control handle, then
write_raw of the single synthesized synchronization record, as two separate
write operations. -/
def emit (io : KCall → Option ErrorKind) (messages : List InputEvent) :
    List KCall × Option ErrorKind :=
  issueAll io [KCall.writeAll Fd.control messages, KCall.writeAll Fd.control [synEvent]]

/-- The event records written by a trace of calls, concatenated in order. -/
def writtenRecords (t : List KCall) : List InputEvent :=
  (t.map fun c =>
    match c with
    | KCall.writeAll _ rs => rs
    | _ => []).flatten

/-- Boolean strict-ascending test on adjacent elements of a code list. -/
def strictAsc : List Nat → Bool
  | [] => true
  | [_] => true
  | a :: b :: rest => decide (a < b) && strictAsc (b :: rest)

/-- Modelled from the spec: AttributeSet / CapabilitySet (outside src/) is an
ordered collection of unique attribute codes for one category; iteration
(iter in the source) yields the codes in ascending order, so the set is
represented by its ascending code list. -/
structure CapabilitySet where
  codes : List Nat
  ascending : strictAsc codes = true

/-- VirtualDeviceBuilder::with_keys: ui_set_evbit(EventType::KEY), then
ui_set_keybit for each code in iteration order, each followed by ?. -/
def with_keys (io : KCall → Option ErrorKind) (keys : CapabilitySet) :
    List KCall × Option ErrorKind :=
  issueAll io
    (KCall.setEvBit Fd.control EventType.KEY ::
      keys.codes.map (KCall.setKeyBit Fd.control))

/-- VirtualDeviceBuilder::with_miscs: ui_set_evbit(EventType::MISC), then
ui_set_mscbit for each code in iteration order. -/
def with_miscs (io : KCall → Option ErrorKind) (keys : CapabilitySet) :
    List KCall × Option ErrorKind :=
  issueAll io
    (KCall.setEvBit Fd.control EventType.MISC ::
      keys.codes.map (KCall.setMscBit Fd.control))

/-- VirtualDeviceBuilder::with_leds: ui_set_evbit(EventType::LED), then
ui_set_ledbit for each code in iteration order. -/
def with_leds (io : KCall → Option ErrorKind) (keys : CapabilitySet) :
    List KCall × Option ErrorKind :=
  issueAll io
    (KCall.setEvBit Fd.control EventType.LED ::
      keys.codes.map (KCall.setLedBit Fd.control))

/-- VirtualDeviceBuilder::with_relative_axes: ui_set_evbit(EventType::RELATIVE),
then ui_set_relbit for each code in iteration order. -/
def with_relative_axes (io : KCall → Option ErrorKind) (axes : CapabilitySet) :
    List KCall × Option ErrorKind :=
  issueAll io
    (KCall.setEvBit Fd.control EventType.RELATIVE ::
      axes.codes.map (KCall.setRelBit Fd.control))

/-- VirtualDeviceBuilder::with_switches: ui_set_evbit(EventType::SWITCH), then
ui_set_swbit for each code in iteration order. -/
def with_switches (io : KCall → Option ErrorKind) (switches : CapabilitySet) :
    List KCall × Option ErrorKind :=
  issueAll io
    (KCall.setEvBit Fd.control EventType.SWITCH ::
      switches.codes.map (KCall.setSwBit Fd.control))

/-- VirtualDeviceBuilder state at build time: the stored name bytes and the
optional bus identity. -/
structure Builder where
  name : List Nat
  id : Option InputId

/-- copy_from_slice into a prefix of dst: dst[..src.len()] becomes src, the
rest of dst is unchanged. Matches the source only when src fits in dst. -/
def copyInto (dst src : List Nat) : List Nat := src ++ dst.drop src.length

/-- The libc::uinput_setup value populated by build: the supplied id or
DEFAULT_ID, a zero-initialized name buffer of capacity UINPUT_MAX_NAME_SIZE
whose prefix receives the stored name, and ff_effects_max = 0. -/
def mkUsetup (b : Builder) : UinputSetup :=
  { id := b.id.getD DEFAULT_ID
    name := copyInto (List.replicate UINPUT_MAX_NAME_SIZE 0) b.name
    ff_effects_max := 0 }

/-- Index of the first zero byte in a list, if any. -/
def firstZeroIdx : List Nat → Option Nat
  | [] => none
  | b :: bs => if b = 0 then some 0 else (firstZeroIdx bs).map (· + 1)

/-- The null scan in open_event_file: first_nul starts at name.len() - 1 and
the loop scans indices 0 .. name.len() - 2 (the range 0..first_nul) for a
zero byte, keeping the starting value when none is found. -/
def scanNul (name : List Nat) : Nat :=
  match firstZeroIdx (name.take (name.length - 1)) with
  | some i => i
  | none => name.length - 1

/-- UTF-8 continuation byte test (0x80 ..= 0xBF). -/
def utf8Cont (b : Nat) : Bool := decide (0x80 ≤ b ∧ b ≤ 0xBF)

/-- UTF-8 validity of a byte sequence per RFC 3629, modelling the validity
check done by std str::from_utf8 (outside src/): rejects overlong forms,
surrogates and code points above U+10FFFF. -/
def utf8Valid : List Nat → Bool
  | [] => true
  | b₁ :: rest =>
    if b₁ < 0x80 then utf8Valid rest
    else if b₁ < 0xC2 then false
    else if b₁ < 0xE0 then
      match rest with
      | b₂ :: r => utf8Cont b₂ && utf8Valid r
      | [] => false
    else if b₁ < 0xF0 then
      match rest with
      | b₂ :: b₃ :: r =>
        (if b₁ = 0xE0 then decide (0xA0 ≤ b₂ ∧ b₂ ≤ 0xBF)
         else if b₁ = 0xED then decide (0x80 ≤ b₂ ∧ b₂ ≤ 0x9F)
         else utf8Cont b₂) && utf8Cont b₃ && utf8Valid r
      | _ => false
    else if b₁ < 0xF5 then
      match rest with
      | b₂ :: b₃ :: b₄ :: r =>
        (if b₁ = 0xF0 then decide (0x90 ≤ b₂ ∧ b₂ ≤ 0xBF)
         else if b₁ = 0xF4 then decide (0x80 ≤ b₂ ∧ b₂ ≤ 0x8F)
         else utf8Cont b₂) && utf8Cont b₃ && utf8Cont b₄ && utf8Valid r
      | _ => false
    else false

/-- One result yielded by the read_dir iterator: an Ok entry with its file
name (file_name() is an Option in the source), or an Err result, which the
loop silently skips. -/
inductive DirEntry where
  | found (fname : Option (List Nat))
  | failed
deriving DecidableEq, Repr

/-- The byte string of the reserved entry-name prefix (b"event"). -/
def eventPfx : List Nat := [101, 118, 101, 110, 116]

/-- The discovery loop over read_dir results: returns the file name of the
first Ok entry whose name starts with eventPfx; Err results and entries
without a file name are skipped. -/
def findEventEntry : List DirEntry → Option (List Nat)
  | [] => none
  | DirEntry.found (some f) :: rest =>
    if eventPfx.isPrefixOf f then some f else findEventEntry rest
  | DirEntry.found none :: rest => findEventEntry rest
  | DirEntry.failed :: rest => findEventEntry rest

/-- The open flags used for the event node: read(true), write commented out,
O_NONBLOCK. -/
def eventOpenCfg : OpenCfg := { readFlag := true, writeFlag := false, nonblock := true }

/-- An opened event-node handle: the /dev/input entry name it was opened
from and the open flags. -/
structure Handle where
  fname : List Nat
  cfg : OpenCfg
deriving DecidableEq, Repr

/-- Filesystem environment for open_event_file: the outcome of the
ui_get_sysname ioctl (on success, the 32-byte buffer content), the outcome
of read_dir on the topology directory, and the outcome of opening
/dev/input/(entry). -/
structure FsEnv where
  sysnameRes : Except ErrorKind (List Nat)
  listing : Except ErrorKind (List DirEntry)
  openRes : List Nat → Except ErrorKind Unit

/-- VirtualDevice::open_event_file: query the sysname on the control handle,
scan for the first null byte, decode as UTF-8 (a decode failure yields a
NotFound error before any directory access), list the topology directory
derived from the decoded name (a listing failure propagates the underlying
error), take the first entry named with the event prefix (exhaustion yields
a NotFound error) and open it read-only, non-blocking. Returns the result
and the trace of issued calls. -/
def open_event_file (env : FsEnv) : Except ErrorKind Handle × List KCall :=
  match env.sysnameRes with
  | Except.error k => (Except.error k, [KCall.getSysname Fd.control])
  | Except.ok name =>
    let bytes := name.take (scanNul name)
    if utf8Valid bytes then
      match env.listing with
      | Except.error k =>
        (Except.error k, [KCall.getSysname Fd.control, KCall.readDir bytes])
      | Except.ok entries =>
        match findEventEntry entries with
        | some f =>
          (match env.openRes f with
           | Except.ok _ => Except.ok { fname := f, cfg := eventOpenCfg }
           | Except.error k => Except.error k,
           [KCall.getSysname Fd.control, KCall.readDir bytes,
            KCall.openFile f eventOpenCfg])
        | none =>
          (Except.error ErrorKind.notFound,
           [KCall.getSysname Fd.control, KCall.readDir bytes])
    else
      (Except.error ErrorKind.notFound, [KCall.getSysname Fd.control])

/-- Result of finalization: a live device (its discovered event handle), an
I/O error, or the assertion failure in build. -/
inductive BuildResult where
  | panicked
  | ok (dev : Handle)
  | err (k : ErrorKind)
deriving DecidableEq, Repr

/-- VirtualDevice::new: ui_dev_setup on the control handle followed by ?,
then ui_dev_create followed by ?, then open_event_file. -/
def vnew (io : KCall → Option ErrorKind) (env : FsEnv) (u : UinputSetup) :
    BuildResult × List KCall :=
  match io (KCall.devSetup Fd.control u) with
  | some k => (BuildResult.err k, [KCall.devSetup Fd.control u])
  | none =>
    match io (KCall.devCreate Fd.control) with
    | some k =>
      (BuildResult.err k, [KCall.devSetup Fd.control u, KCall.devCreate Fd.control])
    | none =>
      let r := open_event_file env
      ((match r.1 with
        | Except.ok h => BuildResult.ok h
        | Except.error k => BuildResult.err k),
       KCall.devSetup Fd.control u :: KCall.devCreate Fd.control :: r.2)

/-- VirtualDeviceBuilder::build: populate the setup record, assert that the
name plus its null terminator fits strictly inside the name buffer (an
assertion failure is a panic, issued before any kernel call of build), copy
the name into the buffer, then VirtualDevice::new. -/
def build (io : KCall → Option ErrorKind) (env : FsEnv) (b : Builder) :
    BuildResult × List KCall :=
  if b.name.length + 1 < UINPUT_MAX_NAME_SIZE then
    vnew io env (mkUsetup b)
  else
    (BuildResult.panicked, [])

/-- The kernel-held per-category state bitmaps delivered by the EVIOCG*
state-query ioctls, abstracted as the buffer contents they fill in. -/
structure KernelState where
  keys : List Nat
  switches : List Nat
  leds : List Nat
deriving DecidableEq, Repr

/-- VirtualDevice::update_key_state: the EVIOCGKEY ioctl on the event handle
fills the caller-supplied buffer with the kernel key state; the kernel state
itself is unchanged. Returns (filled buffer, issued call) and the state. -/
def update_key_state (ks : KernelState) (_buf : List Nat) :
    (List Nat × KCall) × KernelState :=
  ((ks.keys, KCall.eviocgkey Fd.event), ks)

/-- VirtualDevice::update_switch_state: EVIOCGSW on the event handle. -/
def update_switch_state (ks : KernelState) (_buf : List Nat) :
    (List Nat × KCall) × KernelState :=
  ((ks.switches, KCall.eviocgsw Fd.event), ks)

/-- VirtualDevice::update_led_state: EVIOCGLED on the event handle. -/
def update_led_state (ks : KernelState) (_buf : List Nat) :
    (List Nat × KCall) × KernelState :=
  ((ks.leds, KCall.eviocgled Fd.event), ks)

/-- Modelled from the spec: AttributeSet::new (outside src/) allocates a
fresh empty capability buffer. -/
def emptyAttrBuf : List Nat := []

/-- VirtualDevice::get_key_state: allocate a fresh AttributeSet and populate
it via update_key_state. -/
def get_key_state (ks : KernelState) : (List Nat × KCall) × KernelState :=
  update_key_state ks emptyAttrBuf

/-- VirtualDevice::get_switch_state: fresh AttributeSet, update_switch_state. -/
def get_switch_state (ks : KernelState) : (List Nat × KCall) × KernelState :=
  update_switch_state ks emptyAttrBuf

/-- VirtualDevice::get_led_state: fresh AttributeSet, update_led_state. -/
def get_led_state (ks : KernelState) : (List Nat × KCall) × KernelState :=
  update_led_state ks emptyAttrBuf

/-- A concrete 32-byte sysname buffer: the bytes of input0 followed by null
padding, as ui_get_sysname would fill it. -/
def sysnameBytes : List Nat := [105, 110, 112, 117, 116, 48] ++ List.replicate 26 0

/-- A concrete environment in which every filesystem step succeeds and the
topology directory holds a single entry named event0. -/
def fsEnvOk : FsEnv :=
  { sysnameRes := Except.ok sysnameBytes
    listing := Except.ok [DirEntry.found (some [101, 118, 101, 110, 116, 48])]
    openRes := fun _ => Except.ok () }

/-- A concrete environment in which the topology directory exists but cannot
be listed: read_dir fails with a permission-denied error. -/
def fsEnvDenied : FsEnv :=
  { sysnameRes := Except.ok sysnameBytes
    listing := Except.error ErrorKind.permissionDenied
    openRes := fun _ => Except.ok () }

/-- A concrete environment in which the sysname buffer decodes to the single
byte 0xFF, which is not valid UTF-8. -/
def fsEnvBadUtf8 : FsEnv :=
  { sysnameRes := Except.ok ([255] ++ List.replicate 31 0)
    listing := Except.ok []
    openRes := fun _ => Except.ok () }

/-! Helper lemmas about the embedded operations. -/

/-- A successfully completed call chain issues exactly the intended calls. -/
theorem issueAll_fst_of_success (io : KCall → Option ErrorKind) (cs : List KCall)
    (h : (issueAll io cs).2 = none) : (issueAll io cs).1 = cs := by
  induction cs with
  | nil => rfl
  | cons c cs ih =>
    cases hc : io c with
    | none =>
      simp only [issueAll, hc] at h ⊢
      exact congrArg (c :: ·) (ih h)
    | some k => simp [issueAll, hc] at h

/-- Finalization never returns the build-time assertion failure. -/
theorem vnew_ne_panicked (io : KCall → Option ErrorKind) (env : FsEnv)
    (u : UinputSetup) : (vnew io env u).1 ≠ BuildResult.panicked := by
  unfold vnew
  cases io (KCall.devSetup Fd.control u) with
  | some k => simp
  | none =>
    cases io (KCall.devCreate Fd.control) with
    | some k => simp
    | none =>
      simp only
      cases (open_event_file env).1 <;> simp

/-- The finalization trace always starts with the setup-device ioctl. -/
theorem vnew_trace_head (io : KCall → Option ErrorKind) (env : FsEnv)
    (u : UinputSetup) :
    (vnew io env u).2.head? = some (KCall.devSetup Fd.control u) := by
  unfold vnew
  cases io (KCall.devSetup Fd.control u) with
  | some k => rfl
  | none =>
    cases io (KCall.devCreate Fd.control) with
    | some k => rfl
    | none => rfl

/-- Characterization of the first-zero-byte search. -/
theorem firstZeroIdx_spec (l : List Nat) :
    (∀ i, firstZeroIdx l = some i →
      i < l.length ∧ l.getD i 1 = 0 ∧ ∀ j, j < i → l.getD j 1 ≠ 0) ∧
    (firstZeroIdx l = none → ∀ j, j < l.length → l.getD j 1 ≠ 0) := by
  induction l with
  | nil =>
    refine ⟨fun i hi => by simp [firstZeroIdx] at hi, fun _ j hj => by simp at hj⟩
  | cons b bs ih =>
    by_cases hb : b = 0
    · refine ⟨fun i hi => ?_, fun hn => ?_⟩
      · simp [firstZeroIdx, hb] at hi
        subst hi
        exact ⟨Nat.succ_pos _, by simp [List.getD, hb], fun j hj => absurd hj (Nat.not_lt_zero j)⟩
      · simp [firstZeroIdx, hb] at hn
    · refine ⟨fun i hi => ?_, fun hn j hj => ?_⟩
      · simp only [firstZeroIdx, hb, if_false, Option.map_eq_some'] at hi
        obtain ⟨i', hi', hii⟩ := hi
        subst hii
        obtain ⟨h1, h2, h3⟩ := ih.1 i' hi'
        refine ⟨by simpa using h1, by simpa [List.getD] using h2, ?_⟩
        intro j hj
        cases j with
        | zero => simpa [List.getD] using hb
        | succ j' =>
          have := h3 j' (Nat.lt_of_succ_lt_succ hj)
          simpa [List.getD] using this
      · simp only [firstZeroIdx, hb, if_false, Option.map_eq_none'] at hn
        cases j with
        | zero => simpa [List.getD] using hb
        | succ j' =>
          have := ih.2 hn j' (by simpa using Nat.lt_of_succ_lt_succ hj)
          simpa [List.getD] using this

/-- getD commutes with take below the bound. -/
theorem getD_take (l : List Nat) (n j : Nat) (hj : j < n) :
    (l.take n).getD j 1 = l.getD j 1 := by
  simp [List.getD, List.getElem?_take, hj]

/-- The discovery loop only yields names with the event prefix. -/
theorem findEventEntry_pfx :
    ∀ entries f, findEventEntry entries = some f → eventPfx.isPrefixOf f = true := by
  intro entries
  induction entries with
  | nil => intro f hf; simp [findEventEntry] at hf
  | cons e rest ih =>
    intro f hf
    match e with
    | DirEntry.found (some g) =>
      by_cases hg : eventPfx.isPrefixOf g
      · simp [findEventEntry, hg] at hf
        subst hf
        exact hg
      · simp only [findEventEntry, hg, if_false] at hf
        exact ih f hf
    | DirEntry.found none => exact ih f hf
    | DirEntry.failed => exact ih f hf

/-! Claim theorems. -/

/-- C1: for every slice of N input-event records, a successful emit issues
exactly two write operations on the control handle: first the N records
verbatim, then exactly one synchronization record (type SYNCHRONIZATION,
code 0, value 0), which is the last record written for the call. -/
theorem emit_writes_batch_then_single_syn (io : KCall → Option ErrorKind)
    (messages : List InputEvent) (h : (emit io messages).2 = none) :
    (emit io messages).1 =
      [KCall.writeAll Fd.control messages, KCall.writeAll Fd.control [synEvent]] ∧
    (emit io messages).1.length = 2 ∧
    writtenRecords (emit io messages).1 = messages ++ [synEvent] ∧
    (writtenRecords (emit io messages).1).getLast? = some synEvent ∧
    synEvent.ty = EventType.SYNCHRONIZATION ∧ synEvent.code = 0 ∧ synEvent.value = 0 := by
  have ht : (emit io messages).1 =
      [KCall.writeAll Fd.control messages, KCall.writeAll Fd.control [synEvent]] :=
    issueAll_fst_of_success io _ h
  refine ⟨ht, by rw [ht]; rfl, ?_, ?_, rfl, rfl, rfl⟩
  · rw [ht]; simp [writtenRecords]
  · rw [ht]; simp [writtenRecords]

/-- Witness for C1 at a concrete one-record batch in an environment where
both writes succeed. -/
theorem emit_writes_batch_then_single_syn_witness :
    (emit (fun _ => none) [InputEvent.new EventType.KEY 30 1]).1 =
      [KCall.writeAll Fd.control [InputEvent.new EventType.KEY 30 1],
       KCall.writeAll Fd.control [synEvent]] ∧
    (emit (fun _ => none) [InputEvent.new EventType.KEY 30 1]).1.length = 2 ∧
    writtenRecords (emit (fun _ => none) [InputEvent.new EventType.KEY 30 1]).1 =
      [InputEvent.new EventType.KEY 30 1] ++ [synEvent] ∧
    (writtenRecords (emit (fun _ => none) [InputEvent.new EventType.KEY 30 1]).1).getLast? =
      some synEvent ∧
    synEvent.ty = EventType.SYNCHRONIZATION ∧ synEvent.code = 0 ∧ synEvent.value = 0 :=
  emit_writes_batch_then_single_syn (fun _ => none) [InputEvent.new EventType.KEY 30 1]
    (by decide)

/-- C2: build fails deterministically, before any setup or create kernel
call is issued, whenever the stored name's byte length L satisfies
L + 1 greater-or-equal the fixed buffer capacity; when L + 1 is strictly
below the capacity, build proceeds past name validation into finalization. -/
theorem build_name_length_validation (io : KCall → Option ErrorKind) (env : FsEnv)
    (b : Builder) :
    (UINPUT_MAX_NAME_SIZE ≤ b.name.length + 1 →
      (build io env b).1 = BuildResult.panicked ∧ (build io env b).2 = []) ∧
    (b.name.length + 1 < UINPUT_MAX_NAME_SIZE →
      (build io env b).1 ≠ BuildResult.panicked ∧
      (build io env b).2.head? = some (KCall.devSetup Fd.control (mkUsetup b))) := by
  constructor
  · intro hge
    have hlt : ¬ (b.name.length + 1 < UINPUT_MAX_NAME_SIZE) := by omega
    simp [build, hlt]
  · intro hlt
    simp only [build, hlt, if_true]
    exact ⟨vnew_ne_panicked io env (mkUsetup b), vnew_trace_head io env (mkUsetup b)⟩

/-- Witness for C2: a 79-byte name (79 + 1 = 80 = capacity) panics with an
empty build trace, while the four-byte name Test proceeds to finalization. -/
theorem build_name_length_validation_witness :
    (build (fun _ => none) fsEnvOk
        { name := List.replicate 79 65, id := none }).1 = BuildResult.panicked ∧
    (build (fun _ => none) fsEnvOk
        { name := [84, 101, 115, 116], id := none }).1 ≠ BuildResult.panicked :=
  ⟨((build_name_length_validation (fun _ => none) fsEnvOk
      { name := List.replicate 79 65, id := none }).1 (by decide)).1,
   ((build_name_length_validation (fun _ => none) fsEnvOk
      { name := [84, 101, 115, 116], id := none }).2 (by decide)).1⟩

/-- C3: each successful with_x declaration call issues exactly one
declare-event-type ioctl for its category first, followed by one per-code
declare-bit ioctl for every code in the set, in ascending code order. -/
theorem with_capabilities_type_bit_then_codes (io : KCall → Option ErrorKind)
    (s : CapabilitySet) :
    strictAsc s.codes = true ∧
    ((with_keys io s).2 = none →
      (with_keys io s).1 =
        KCall.setEvBit Fd.control EventType.KEY ::
          s.codes.map (KCall.setKeyBit Fd.control)) ∧
    ((with_miscs io s).2 = none →
      (with_miscs io s).1 =
        KCall.setEvBit Fd.control EventType.MISC ::
          s.codes.map (KCall.setMscBit Fd.control)) ∧
    ((with_leds io s).2 = none →
      (with_leds io s).1 =
        KCall.setEvBit Fd.control EventType.LED ::
          s.codes.map (KCall.setLedBit Fd.control)) ∧
    ((with_relative_axes io s).2 = none →
      (with_relative_axes io s).1 =
        KCall.setEvBit Fd.control EventType.RELATIVE ::
          s.codes.map (KCall.setRelBit Fd.control)) ∧
    ((with_switches io s).2 = none →
      (with_switches io s).1 =
        KCall.setEvBit Fd.control EventType.SWITCH ::
          s.codes.map (KCall.setSwBit Fd.control)) :=
  ⟨s.ascending,
   fun h => issueAll_fst_of_success io _ h,
   fun h => issueAll_fst_of_success io _ h,
   fun h => issueAll_fst_of_success io _ h,
   fun h => issueAll_fst_of_success io _ h,
   fun h => issueAll_fst_of_success io _ h⟩

/-- Witness for C3: the set of codes 1, 30, 44 declared in an environment
where every ioctl succeeds. -/
theorem with_capabilities_type_bit_then_codes_witness :
    strictAsc [1, 30, 44] = true ∧
    (with_keys (fun _ => none) ⟨[1, 30, 44], by decide⟩).1 =
      KCall.setEvBit Fd.control EventType.KEY ::
        [1, 30, 44].map (KCall.setKeyBit Fd.control) ∧
    (with_switches (fun _ => none) ⟨[1, 30, 44], by decide⟩).1 =
      KCall.setEvBit Fd.control EventType.SWITCH ::
        [1, 30, 44].map (KCall.setSwBit Fd.control) :=
  ⟨(with_capabilities_type_bit_then_codes (fun _ => none) ⟨[1, 30, 44], by decide⟩).1,
   (with_capabilities_type_bit_then_codes (fun _ => none) ⟨[1, 30, 44], by decide⟩).2.1
     (by decide),
   (with_capabilities_type_bit_then_codes
      (fun _ => none) ⟨[1, 30, 44], by decide⟩).2.2.2.2.2 (by decide)⟩

/-- C4: finalization issues the setup-device ioctl first and the
create-device ioctl second as two sequential kernel calls; the create ioctl
is never issued unless the setup ioctl succeeded, and both precede every
event-node discovery call. -/
theorem vnew_setup_create_before_discovery (io : KCall → Option ErrorKind)
    (env : FsEnv) (u : UinputSetup) :
    (vnew io env u).2.head? = some (KCall.devSetup Fd.control u) ∧
    (io (KCall.devSetup Fd.control u) ≠ none →
      (vnew io env u).2 = [KCall.devSetup Fd.control u]) ∧
    (io (KCall.devSetup Fd.control u) = none →
      io (KCall.devCreate Fd.control) ≠ none →
      (vnew io env u).2 = [KCall.devSetup Fd.control u, KCall.devCreate Fd.control]) ∧
    (io (KCall.devSetup Fd.control u) = none →
      io (KCall.devCreate Fd.control) = none →
      (vnew io env u).2 =
        KCall.devSetup Fd.control u :: KCall.devCreate Fd.control ::
          (open_event_file env).2) := by
  refine ⟨vnew_trace_head io env u, ?_, ?_, ?_⟩
  · intro hs
    unfold vnew
    cases hsv : io (KCall.devSetup Fd.control u) with
    | some k => rfl
    | none => exact absurd hsv hs
  · intro hs hc
    unfold vnew
    rw [hs]
    cases hcv : io (KCall.devCreate Fd.control) with
    | some k => rfl
    | none => exact absurd hcv hc
  · intro hs hc
    unfold vnew
    rw [hs, hc]

/-- Witness for C4: a concrete setup record finalized in an environment
where every call succeeds. -/
theorem vnew_setup_create_before_discovery_witness :
    (vnew (fun _ => none) fsEnvOk
        (mkUsetup { name := [84, 101, 115, 116], id := none })).2 =
      KCall.devSetup Fd.control (mkUsetup { name := [84, 101, 115, 116], id := none }) ::
        KCall.devCreate Fd.control :: (open_event_file fsEnvOk).2 :=
  (vnew_setup_create_before_discovery (fun _ => none) fsEnvOk
    (mkUsetup { name := [84, 101, 115, 116], id := none })).2.2.2 rfl rfl

/-- C5 counterexample: a 32-byte sysname buffer with no null byte anywhere;
the decode length used by the scan is 31 (buffer length minus one), not the
full buffer length 32 the claim states. -/
theorem scanNul_full_buffer_counterexample :
    (List.replicate 32 65).all (fun b => decide (b ≠ 0)) = true ∧
    (List.replicate 32 65).length = 32 ∧
    scanNul (List.replicate 32 65) = 31 ∧
    ¬ scanNul (List.replicate 32 65) = 32 := by decide

/-- C5 amended: the kernel-assigned name is taken up to the first null byte
found among the first 31 bytes of the 32-byte buffer; if none of those bytes
is null, length 31 (the buffer length minus one) is used, not the full
buffer length. -/
theorem scanNul_first_nul_or_len_minus_one (name : List Nat)
    (h : name.length = 32) :
    scanNul name ≤ 31 ∧
    (∀ j, j < scanNul name → name.getD j 1 ≠ 0) ∧
    (scanNul name < 31 → name.getD (scanNul name) 1 = 0) ∧
    ((∀ j, j < 31 → name.getD j 1 ≠ 0) → scanNul name = 31) := by
  have hl : name.length - 1 = 31 := by omega
  have hlt : (name.take (name.length - 1)).length = 31 := by
    rw [List.length_take]
    omega
  cases hfz : firstZeroIdx (name.take (name.length - 1)) with
  | some i =>
    have hsv : scanNul name = i := by simp [scanNul, hfz]
    obtain ⟨hi1, hi2, hi3⟩ := (firstZeroIdx_spec (name.take (name.length - 1))).1 i hfz
    rw [hlt] at hi1
    have hgi : name.getD i 1 = 0 := by
      rw [← getD_take name (name.length - 1) i (by omega)]
      exact hi2
    rw [hsv]
    refine ⟨by omega, ?_, fun _ => hgi, fun hall => absurd hgi (hall i hi1)⟩
    intro j hj
    rw [← getD_take name (name.length - 1) j (by omega)]
    exact hi3 j hj
  | none =>
    have hsv : scanNul name = 31 := by
      simp only [scanNul, hfz]
      omega
    have hnone := (firstZeroIdx_spec (name.take (name.length - 1))).2 hfz
    rw [hsv]
    refine ⟨Nat.le_refl 31, ?_, by omega, fun _ => rfl⟩
    intro j hj
    rw [← getD_take name (name.length - 1) j (by omega)]
    exact hnone j (by omega)

/-- Witness for C5 amended: the concrete sysname buffer input0 padded with
nulls to 32 bytes. -/
theorem scanNul_first_nul_or_len_minus_one_witness :
    sysnameBytes.length = 32 ∧ scanNul sysnameBytes ≤ 31 :=
  ⟨by decide, (scanNul_first_nul_or_len_minus_one sysnameBytes (by decide)).1⟩

/-- C6 counterexample: when the topology directory cannot be listed, the
listing error is propagated as is; with a permission-denied listing failure
the result is a permission-denied error, not the not-found error the claim
states. -/
theorem open_event_file_listing_error_counterexample :
    (open_event_file fsEnvDenied).1 = Except.error ErrorKind.permissionDenied ∧
    ErrorKind.permissionDenied ≠ ErrorKind.notFound := by
  exact ⟨rfl, by decide⟩

/-- C6 amended: discovery lists the topology directory derived from the
decoded short name and opens the device node of the first listed entry whose
file name starts with the event prefix, read-only and non-blocking; if the
listing exhausts with no such entry it fails with a not-found error, and if
the directory cannot be listed the listing error is propagated with its
original kind. -/
theorem open_event_file_discovery (env : FsEnv) (name : List Nat)
    (hs : env.sysnameRes = Except.ok name)
    (hv : utf8Valid (name.take (scanNul name)) = true) :
    (∀ k, env.listing = Except.error k →
      (open_event_file env).1 = Except.error k ∧
      (open_event_file env).2 =
        [KCall.getSysname Fd.control, KCall.readDir (name.take (scanNul name))]) ∧
    (∀ entries, env.listing = Except.ok entries →
      (findEventEntry entries = none →
        (open_event_file env).1 = Except.error ErrorKind.notFound) ∧
      (∀ f, findEventEntry entries = some f →
        eventPfx.isPrefixOf f = true ∧
        (open_event_file env).2 =
          [KCall.getSysname Fd.control, KCall.readDir (name.take (scanNul name)),
           KCall.openFile f eventOpenCfg] ∧
        (env.openRes f = Except.ok () →
          (open_event_file env).1 = Except.ok { fname := f, cfg := eventOpenCfg }))) := by
  constructor
  · intro k hk
    simp [open_event_file, hs, hv, hk]
  · intro entries hent
    constructor
    · intro hnone
      simp [open_event_file, hs, hv, hent, hnone]
    · intro f hf
      refine ⟨findEventEntry_pfx entries f hf, ?_, ?_⟩
      · simp [open_event_file, hs, hv, hent, hf]
      · intro hopen
        simp [open_event_file, hs, hv, hent, hf, hopen]

/-- Witness for C6 amended: in the all-success environment, discovery opens
the entry event0 read-only, non-blocking. -/
theorem open_event_file_discovery_witness :
    (open_event_file fsEnvOk).1 =
      Except.ok { fname := [101, 118, 101, 110, 116, 48], cfg := eventOpenCfg } :=
  (((open_event_file_discovery fsEnvOk sysnameBytes rfl (by decide)).2
      [DirEntry.found (some [101, 118, 101, 110, 116, 48])] rfl).2
      [101, 118, 101, 110, 116, 48] (by decide)).2.2 rfl

/-- C7: the setup record uses the supplied identity when one was given, and
otherwise the default identity with bus BUS_USB, vendor 0x1234, product
0x5678, version 0x111; the name buffer is the stored name zero-padded to the
fixed capacity; the force-feedback effect count is 0. -/
theorem mkUsetup_identity_name_ff (b : Builder)
    (h : b.name.length + 1 < UINPUT_MAX_NAME_SIZE) :
    (b.id = none → (mkUsetup b).id = DEFAULT_ID) ∧
    (∀ i, b.id = some i → (mkUsetup b).id = i) ∧
    DEFAULT_ID = { bustype := BusType.BUS_USB, vendor := 0x1234,
                   product := 0x5678, version := 0x111 } ∧
    (mkUsetup b).name =
      b.name ++ List.replicate (UINPUT_MAX_NAME_SIZE - b.name.length) 0 ∧
    (mkUsetup b).name.length = UINPUT_MAX_NAME_SIZE ∧
    (mkUsetup b).name.take b.name.length = b.name ∧
    (mkUsetup b).ff_effects_max = 0 := by
  have hname : (mkUsetup b).name =
      b.name ++ List.replicate (UINPUT_MAX_NAME_SIZE - b.name.length) 0 := by
    simp [mkUsetup, copyInto, List.drop_replicate]
  refine ⟨fun hid => by simp [mkUsetup, hid], fun i hid => by simp [mkUsetup, hid],
    rfl, hname, ?_, ?_, rfl⟩
  · rw [hname]
    simp only [List.length_append, List.length_replicate]
    omega
  · rw [hname]
    simp

/-- Witness for C7: the four-byte name Test with no supplied identity. -/
theorem mkUsetup_identity_name_ff_witness :
    ([84, 101, 115, 116] : List Nat).length + 1 < UINPUT_MAX_NAME_SIZE ∧
    (mkUsetup { name := [84, 101, 115, 116], id := none }).id = DEFAULT_ID ∧
    (mkUsetup { name := [84, 101, 115, 116], id := none }).ff_effects_max = 0 :=
  ⟨by decide,
   (mkUsetup_identity_name_ff { name := [84, 101, 115, 116], id := none }
     (by decide)).1 rfl,
   (mkUsetup_identity_name_ff { name := [84, 101, 115, 116], id := none }
     (by decide)).2.2.2.2.2.2⟩

/-- C8: each get_x_state equals the corresponding update_x_state applied to
a freshly allocated empty set; every state-query ioctl targets the event
handle, not the control handle, and no variant mutates the kernel-held
state. -/
theorem get_state_refines_update_state (ks : KernelState) (buf : List Nat) :
    get_key_state ks = update_key_state ks emptyAttrBuf ∧
    get_switch_state ks = update_switch_state ks emptyAttrBuf ∧
    get_led_state ks = update_led_state ks emptyAttrBuf ∧
    (update_key_state ks buf).1.2 = KCall.eviocgkey Fd.event ∧
    (update_switch_state ks buf).1.2 = KCall.eviocgsw Fd.event ∧
    (update_led_state ks buf).1.2 = KCall.eviocgled Fd.event ∧
    Fd.event ≠ Fd.control ∧
    (update_key_state ks buf).2 = ks ∧
    (update_switch_state ks buf).2 = ks ∧
    (update_led_state ks buf).2 = ks :=
  ⟨rfl, rfl, rfl, rfl, rfl, rfl, by decide, rfl, rfl, rfl⟩

/-- C9: the key-state query leaves the kernel-held state unchanged, so two
successive get_key_state calls with no intervening emit and no external
state change return identical result sets. -/
theorem get_key_state_idempotent (ks : KernelState) :
    (get_key_state ks).2 = ks ∧
    (get_key_state ((get_key_state ks).2)).1.1 = (get_key_state ks).1.1 :=
  ⟨rfl, rfl⟩

/-- C10: when the decoded sysname bytes are not valid UTF-8, open_event_file
returns a not-found error and issues no topology-directory listing and no
event-node open. -/
theorem open_event_file_invalid_utf8_not_found (env : FsEnv) (name : List Nat)
    (hs : env.sysnameRes = Except.ok name)
    (hv : utf8Valid (name.take (scanNul name)) = false) :
    (open_event_file env).1 = Except.error ErrorKind.notFound ∧
    (open_event_file env).2 = [KCall.getSysname Fd.control] ∧
    (∀ bs, ¬ KCall.readDir bs ∈ (open_event_file env).2) ∧
    (∀ f cfg, ¬ KCall.openFile f cfg ∈ (open_event_file env).2) := by
  have hpair : open_event_file env =
      (Except.error ErrorKind.notFound, [KCall.getSysname Fd.control]) := by
    simp [open_event_file, hs, hv]
  refine ⟨by rw [hpair], by rw [hpair], ?_, ?_⟩
  · intro bs
    rw [hpair]
    simp
  · intro f cfg
    rw [hpair]
    simp

/-- Witness for C10: a sysname buffer whose decoded bytes are the single
byte 0xFF, which is not valid UTF-8. -/
theorem open_event_file_invalid_utf8_not_found_witness :
    utf8Valid ((([255] ++ List.replicate 31 0) : List Nat).take
      (scanNul ([255] ++ List.replicate 31 0))) = false ∧
    (open_event_file fsEnvBadUtf8).1 = Except.error ErrorKind.notFound :=
  ⟨by decide,
   (open_event_file_invalid_utf8_not_found fsEnvBadUtf8
     ([255] ++ List.replicate 31 0) rfl (by decide)).1⟩

end Evdev
